import Mathlib

/-!
Shallow embedding of the k8s-observability-mcp repository (Python) in Lean 4,
together with theorems settling the frozen claims about it.

Modelling conventions, used throughout:
* Python dictionaries with a fixed set of keys become Lean structures; optional
  keys become `Option` fields (a key that the code only sometimes inserts).
* Python numbers (ints and floats) are modelled as `Nat` / `ℚ`; float
  arithmetic is idealised as exact rational arithmetic.
* Network / kubernetes-client calls are I/O: each operation is parametrised by
  the outcome of the backend call it performs (`Except String _` for a call
  that can raise, where the `String` is the stringified exception).
* Python `try/except` becomes pattern matching on those `Except` outcomes; an
  operation that can itself raise to its caller returns an `Except`.
* f-strings are built with `++` from their pieces; where a float is
  interpolated, the message is modelled by a constructor carrying the
  interpolated values instead of a rendered string.
-/

/-! ## String helpers (Python `in`, `str.upper`, `str.split`) -/

/-- Python `needle in hay` for lists of characters: `needle` occurs as a
contiguous infix of `hay`. -/
def listIsInfix : List Char → List Char → Bool
  | needle, [] => needle.isEmpty
  | needle, c :: rest => needle.isPrefixOf (c :: rest) || listIsInfix needle rest

/-- Python `needle in hay` on strings (substring containment). -/
def strContains (hay needle : String) : Bool :=
  listIsInfix needle.toList hay.toList

/-- Python `str.upper()` (ASCII is all the source ever feeds it). -/
def pyUpper (s : String) : String :=
  String.mk (s.toList.map Char.toUpper)

/-- Helper for `pySplitLines`: accumulates the current line (reversed). -/
def splitLinesAux (cur : List Char) : List Char → List (List Char)
  | [] => [cur.reverse]
  | c :: rest =>
    if c = '\n' then cur.reverse :: splitLinesAux [] rest
    else splitLinesAux (c :: cur) rest

/-- Python `s.split('\n')`: always at least one piece, `"".split('\n') = [""]`. -/
def pySplitLines (s : String) : List String :=
  (splitLinesAux [] s.toList).map String.mk

/-- Lookup in an association list where, as in a Python dict comprehension
built from a sequence of pairs, a later binding for the same key overwrites an
earlier one. -/
def lookupLast (ps : List (String × String)) (k : String) : Option String :=
  ps.foldl (fun acc p => if p.1 = k then some p.2 else acc) none

/-! ## Jaeger trace model (`src/api/jaeger_api.py`)

A Jaeger trace is an already-parsed JSON tree.  The fields below are exactly
the ones `JaegerAPI.process_trace` reads; fields read with `dict.get` (which
tolerates absence) are `Option` / defaulted-to-`[]` fields, fields read with
`dict[...]` (which the code assumes present) are plain fields. -/

/-- A Jaeger tag value (`tag["value"]` can be a bool, string or number). -/
inductive JaegerVal
  | bool (b : Bool)
  | str (s : String)
  | num (q : ℚ)
deriving DecidableEq

/-- A span tag; `process_trace` reads both fields with `.get`. -/
structure JaegerTag where
  key : Option String
  value : Option JaegerVal
deriving DecidableEq

/-- A span-log field; `process_trace` reads `field['key']` / `field['value']`
(required accesses).  The values the code consumes ("event", "message",
"stack") are strings, so the value is modelled as a string. -/
structure LogField where
  key : String
  value : String
deriving DecidableEq

/-- A span log entry; `log.get("fields", [])` means a missing list is `[]`. -/
structure SpanLog where
  fields : List LogField
deriving DecidableEq

/-- A Jaeger span.  `references` is read with `.get` (`none` = key missing);
`duration`, `startTime` and `processID` are required accesses.  The content of
a reference is never inspected, only its presence, so references are `Unit`s. -/
structure Span where
  references : Option (List Unit)
  duration : Nat
  startTime : Nat
  processID : String
  tags : List JaegerTag
  logs : List SpanLog
deriving DecidableEq

/-- A Jaeger trace: required keys `traceID`, `spans` and `processes` (the
latter a dict from process id to an object whose `serviceName` the code
reads; modelled as an association list with unique keys). -/
structure JTrace where
  traceID : String
  spans : List Span
  processes : List (String × String)
deriving DecidableEq

/-- The dictionary `process_trace` returns for a trace with a root span.
`error_message` is inserted only when `has_error` is set. -/
structure ProcessedTrace where
  traceID : String
  latency_ms : ℚ
  has_error : Bool
  sequence : String
  error_message : Option String
deriving DecidableEq

/-- `if not span.get("references")`: the references key is missing, or holds
an empty (falsy) list. -/
def refsMissingOrEmpty (s : Span) : Bool :=
  match s.references with
  | none => true
  | some l => l.isEmpty

/-- `tag.get("key") == "error" and tag.get("value") is True` for some tag. -/
def spanHasErrorTag (s : Span) : Bool :=
  s.tags.any fun t => decide (t.key = some "error" ∧ t.value = some (JaegerVal.bool true))

/-- Error details of one span log: build the fields dict (later duplicate keys
overwrite earlier ones), and if `event == "error"`, collect `message` and the
first line of `stack`, in that order. -/
def logErrorDetails (lg : SpanLog) : List String :=
  let fields := lg.fields.map fun f => (f.key, f.value)
  if lookupLast fields "event" = some "error" then
    (match lookupLast fields "message" with
     | some m => [m]
     | none => []) ++
    (match lookupLast fields "stack" with
     | some st => [(pySplitLines st).headD ""]
     | none => [])
  else []

/-- Error details of one span: its logs are searched only when the span
carries the error tag. -/
def spanErrorDetails (s : Span) : List String :=
  if spanHasErrorTag s then (s.logs.map logErrorDetails).flatten else []

/-- Python `sorted(spans, key=lambda s: s["startTime"])`.  Python's sort is
stable, and a stable sort by a total key is unique, so insertion sort computes
exactly the same list. -/
def sortSpans (spans : List Span) : List Span :=
  List.insertionSort (fun a b => a.startTime ≤ b.startTime) spans

/-- The service-sequence loop of `process_trace`: walk the sorted spans
carrying `last_service`; a span contributes its service name when the lookup
succeeds, the name is truthy (non-empty) and differs from `last_service`. -/
def buildSeq (smap : List (String × String)) : List Span → Option String → List String
  | [], _ => []
  | s :: rest, last =>
    match smap.lookup s.processID with
    | some name =>
      if name ≠ "" ∧ some name ≠ last then name :: buildSeq smap rest (some name)
      else buildSeq smap rest last
    | none => buildSeq smap rest last

/-- The result dictionary `process_trace` builds once a root span was found:
latency from the root duration, error flag and joined error details from all
spans, and the rebuilt ordered service sequence. -/
def processedOf (t : JTrace) (root : Span) : ProcessedTrace :=
  let latency_ms : ℚ := (root.duration : ℚ) / 1000
  let has_error := t.spans.any spanHasErrorTag
  let error_details := (t.spans.map spanErrorDetails).flatten
  let error_message :=
    if ¬ error_details.isEmpty then String.intercalate "; " error_details else "N/A"
  let service_sequence := buildSeq t.processes (sortSpans t.spans) none
  { traceID := t.traceID
    latency_ms := latency_ms
    has_error := has_error
    sequence := String.intercalate " -> " service_sequence
    error_message := if has_error then some error_message else none }

/-- `JaegerAPI.process_trace` (src/api/jaeger_api.py:44-108): find the first
span with missing/empty references as root (else return `None`), then build
the processed-trace dictionary. -/
def process_trace (t : JTrace) : Option ProcessedTrace :=
  match t.spans.find? refsMissingOrEmpty with
  | none => none
  | some root => some (processedOf t root)

/-! ## JaegerAPI methods around `process_trace` -/

/-- The instance state a `JaegerAPI` object carries: the Jaeger base url and
the service-name snapshot taken in `__init__`. -/
structure JaegerState where
  jaeger_url : String
  services : List String
deriving DecidableEq

/-- `process_trace` as the method it is in the source: it receives `self` but
its body never reads or writes any attribute of it. -/
def processTraceMethod (_self : JaegerState) (t : JTrace) : Option ProcessedTrace :=
  process_trace t

/-- The dictionary built by `get_processed_traces` / `get_slow_traces`.
Fields are `Option` because each key is inserted only on some paths. -/
structure TraceResults where
  error : Option String := none
  info : Option String := none
  service : Option String := none
  traces : Option (List ProcessedTrace) := none
  traces_count : Option Nat := none
deriving DecidableEq

/-- Rendering of an interpolated number in an f-string (the exact float
rendering is irrelevant to every claim; exact rationals stand in). -/
def fmtQ (q : ℚ) : String := toString q

/-- `JaegerAPI.get_processed_traces` (src/api/jaeger_api.py:110-139).  The
HTTP fetch `get_jaeger_traces` is I/O and is abstracted by its outcome
`fetch` (`none` models the `None` it returns when the request raised). -/
def get_processed_traces (self : JaegerState) (service : String) (lookback : String)
    (fetch : Option (List JTrace)) : TraceResults :=
  if service ∉ self.services then
    { error := some ("The service " ++ service ++ " does not exist") }
  else
    match fetch with
    | none =>
      { service := some service, traces := some []
        error := some "Failed to fetch traces from Jaeger" }
    | some [] =>
      { service := some service, traces := some []
        info := some ("No traces found for service '" ++ service ++
          "' with lookback '" ++ lookback ++ "'.") }
    | some traces =>
      let processed := traces.filterMap process_trace
      { service := some service, traces := some processed
        traces_count := some processed.length }

/-- Python `list.sort(key=..., reverse=True)`: a stable descending sort by
latency; as with `sortSpans`, insertion sort with the reversed total key
computes the same list. -/
def sortByLatencyDesc (l : List ProcessedTrace) : List ProcessedTrace :=
  List.insertionSort (fun a b => b.latency_ms ≤ a.latency_ms) l

/-- `JaegerAPI.get_slow_traces` (src/api/jaeger_api.py:163-216).  Unlike
`get_processed_traces`, it guards the fetch result with a single truthiness
test `if not traces`, so a failed fetch (`None`) and an empty list take the
same branch. -/
def get_slow_traces (self : JaegerState) (service : String) (min_duration_ms : ℚ)
    (lookback : String) (fetch : Option (List JTrace)) : TraceResults :=
  if service ∉ self.services then
    { error := some ("The service " ++ service ++ " does not exist") }
  else
    match fetch with
    | none | some [] =>
      { service := some service, traces := some []
        info := some ("No traces found for service '" ++ service ++
          "' with a minimum duration of " ++ fmtQ min_duration_ms ++
          "ms in the last " ++ lookback ++ ".") }
    | some traces =>
      let processed := sortByLatencyDesc (traces.filterMap process_trace)
      { service := some service, traces := some processed
        traces_count := some processed.length }

/-! ## Prometheus metrics and triage (`src/api/prometheus_api.py`) -/

/-- A value stored in the `metrics` dict of `get_pod_metrics`: a float, or the
string `"Error: ..."` built in the per-metric `except` clause.  (The third
possibility, Python `None`, is the `none` of the surrounding `Option`.) -/
inductive MetricVal
  | num (q : ℚ)
  | err (s : String)
deriving DecidableEq

/-- Outcome of one instant Prometheus query for one metric, as
`get_pod_metrics` distinguishes them: the query (or the `float(...)`
conversion) raised; the result list was empty/falsy; the first result had no
`value` key; or a value was extracted. -/
inductive PromResp
  | raises (e : String)
  | empty
  | noValueField
  | value (q : ℚ)

/-- `PrometheusAPI.normal_metrics` (class attribute). -/
def normal_metrics : List String :=
  ["container_cpu_usage_seconds_total",
   "container_cpu_user_seconds_total",
   "container_cpu_system_seconds_total",
   "container_cpu_cfs_throttled_seconds_total",
   "container_cpu_cfs_throttled_periods_total",
   "container_cpu_cfs_periods_total",
   "container_cpu_load_average_10s",
   "container_memory_cache",
   "container_memory_usage_bytes",
   "container_memory_working_set_bytes",
   "container_memory_rss",
   "container_memory_mapped_file",
   "container_spec_cpu_period",
   "container_spec_cpu_quota",
   "container_spec_memory_limit_bytes",
   "container_spec_cpu_shares",
   "container_threads",
   "container_threads_max",
   "container_network_receive_errors_total",
   "container_network_receive_packets_dropped_total",
   "container_network_receive_packets_total",
   "container_network_receive_bytes_total",
   "container_network_transmit_bytes_total",
   "container_network_transmit_errors_total",
   "container_network_transmit_packets_dropped_total",
   "container_network_transmit_packets_total"]

/-- `PrometheusAPI.network_metrics` (class attribute). -/
def network_metrics : List String :=
  ["container_network_receive_errors_total",
   "container_network_receive_packets_dropped_total",
   "container_network_receive_packets_total",
   "container_network_receive_bytes_total",
   "container_network_transmit_bytes_total",
   "container_network_transmit_errors_total",
   "container_network_transmit_packets_dropped_total",
   "container_network_transmit_packets_total"]

/-- `list(set(normal_metrics + network_metrics))`.  A Python set fixes no
iteration order; we fix first-occurrence order.  No claim depends on the
order, only on the key set. -/
def all_metrics : List String := (normal_metrics ++ network_metrics).eraseDups

/-- The instance state of a `PrometheusAPI` object that `get_pod_metrics` and
`get_pod_triage_metrics` read: the target namespace and the pod-name snapshot
taken in `__init__`. -/
structure PromState where
  nspace : String
  pods : List String
deriving DecidableEq

/-- The dictionary returned by `get_pod_metrics`.  `metrics` maps each metric
name to `float | None | "Error: ..."`. -/
structure PodData where
  resource_type : String
  resource_namespace : String
  resource_name : String
  metrics : List (String × Option MetricVal)
  error : Option String := none
deriving DecidableEq

/-- How the body of the per-metric loop turns a query outcome into the stored
dict value (src/api/prometheus_api.py:105-121). -/
def interpResp : PromResp → Option MetricVal
  | .raises e => some (.err ("Error: " ++ e))
  | .empty => none
  | .noValueField => none
  | .value q => some (.num q)

/-- `PrometheusAPI.get_pod_metrics` (src/api/prometheus_api.py:78-123),
parametrised by the outcome `qf` of the instant query for each metric.  A pod
absent from the snapshot gets an `error` key and an empty `metrics` dict. -/
def get_pod_metrics (self : PromState) (pod_name : String)
    (qf : String → PromResp) : PodData :=
  if pod_name ∈ self.pods then
    { resource_type := "pod", resource_namespace := self.nspace
      resource_name := pod_name
      metrics := all_metrics.map fun m => (m, interpResp (qf m)) }
  else
    { resource_type := "pod", resource_namespace := self.nspace
      resource_name := pod_name, metrics := []
      error := some ("The pod " ++ pod_name ++ " does not exist in the " ++
        self.nspace ++ " namespace.") }

/-- Python `metrics.get(k)`: `None` whether the key is absent or stored with
value `None`. -/
def mget (metrics : List (String × Option MetricVal)) (k : String) : Option MetricVal :=
  (metrics.lookup k).join

/-- One entry of the `reasons` list of the triage result.  Each constructor
stands for one appended f-string and carries the values the f-string
interpolates (percent/int rendering of floats abstracted away). -/
inductive TriageReason
  | podError (msg : String)
  | threadSaturation (ratio threads threads_max : ℚ)
  | highCpuLoad (load : ℚ)
  | networkIssue (description : String) (value : ℚ)
deriving DecidableEq

/-- The dictionary returned by `get_pod_triage_metrics`. -/
structure TriageResult where
  is_anomalous : Bool
  reasons : List TriageReason
  checked_metrics : List (String × Option MetricVal)
deriving DecidableEq

/-- Triage Rule 1 (thread saturation), with Python's dynamic typing: the
comparison `threads_max > 0` and the division raise `TypeError` when the dict
holds an `"Error: ..."` string instead of a float. -/
def triageRule1 (m : List (String × Option MetricVal)) : Except String (List TriageReason) :=
  match mget m "container_threads", mget m "container_threads_max" with
  | some threads, some threads_max =>
    match threads_max with
    | .err _ => .error "TypeError"
    | .num tmax =>
      if tmax > 0 then
        match threads with
        | .err _ => .error "TypeError"
        | .num t =>
          let ratio := t / tmax
          .ok (if ratio > 95 / 100 then [.threadSaturation ratio t tmax] else [])
      else .ok []
  | _, _ => .ok []

/-- Triage Rule 2 (high CPU load); `cpu_load > 10.0` raises on a string. -/
def triageRule2 (m : List (String × Option MetricVal)) : Except String (List TriageReason) :=
  match mget m "container_cpu_load_average_10s" with
  | none => .ok []
  | some (.err _) => .error "TypeError"
  | some (.num load) => .ok (if load > 10 then [.highCpuLoad load] else [])

/-- The `network_checks` dict of Rule 3, in its insertion order. -/
def network_checks : List (String × String) :=
  [("container_network_receive_errors_total", "receive errors"),
   ("container_network_transmit_errors_total", "transmit errors"),
   ("container_network_receive_packets_dropped_total", "dropped received packets"),
   ("container_network_transmit_packets_dropped_total", "dropped transmitted packets")]

/-- One iteration of Rule 3; `value > 1` raises on a string. -/
def triageNetCheck (m : List (String × Option MetricVal)) (check : String × String) :
    Except String (List TriageReason) :=
  match mget m check.1 with
  | none => .ok []
  | some (.err _) => .error "TypeError"
  | some (.num v) => .ok (if v > 1 then [.networkIssue check.2 v] else [])

/-- Triage Rule 3 over the four network checks, in dict order. -/
def triageRule3 (m : List (String × Option MetricVal)) : Except String (List TriageReason) :=
  network_checks.foldlM (fun acc check => do
    let r ← triageNetCheck m check
    pure (acc ++ r)) []

/-- The pure tail of `get_pod_triage_metrics` (src/api/prometheus_api.py:
199-249) applied to the dict `get_pod_metrics` returned: the `error` key
short-circuits to an anomaly, otherwise the three rules run in order, each
firing rule appending one reason and setting `is_anomalous`.  The result is
`Except` because the rules' comparisons can raise `TypeError` on an
`"Error: ..."` metric value. -/
def triage_of_pod_data (pd : PodData) : Except String TriageResult :=
  let checked := pd.metrics
  match pd.error with
  | some e => .ok { is_anomalous := true, reasons := [.podError e], checked_metrics := checked }
  | none => do
    let r1 ← triageRule1 pd.metrics
    let r2 ← triageRule2 pd.metrics
    let r3 ← triageRule3 pd.metrics
    let reasons := r1 ++ r2 ++ r3
    pure { is_anomalous := ¬ reasons.isEmpty, reasons := reasons, checked_metrics := checked }

/-- `PrometheusAPI.get_pod_triage_metrics` (src/api/prometheus_api.py:184-249):
fetch the instant snapshot, then triage it. -/
def get_pod_triage_metrics (self : PromState) (pod_name : String)
    (qf : String → PromResp) : Except String TriageResult :=
  triage_of_pod_data (get_pod_metrics self pod_name qf)

/-! ## Log API (`src/api/log_api.py`) -/

/-- The instance state of a `LogAPI` object: namespace and pod snapshot. -/
structure LogState where
  nspace : String
  pods : List String
deriving DecidableEq

/-- The `important_keywords` list of `get_pod_logs`. -/
def important_keywords : List String :=
  ["ERROR", "WARN", "CRITICAL", "FATAL", "PANIC",
   "EXCEPTION", "FAILURE", "FAILED", "TIMEOUT",
   "REFUSED", "DENIED", "UNREACHABLE", "RESTART",
   "CRASH", "KILLED", "OOM", "5xx", "500", "503", "502",
   "4xx", "401", "403", "404", "CONNECTION", "DISK"]

/-- `LogAPI.get_pod_logs` (src/api/log_api.py:11-52), parametrised by the
outcome of `read_namespaced_pod_log` (including the lazy `k8s_client`
initialisation it may trigger).  The return type is `Except` to express that
the method itself never raises: every path yields `.ok`.  `tail` only shapes
the k8s request, which `fetch` abstracts. -/
def get_pod_logs (self : LogState) (pod_name : String) (_tail : Nat)
    (important : Bool) (fetch : Except String String) : Except String String :=
  if pod_name ∉ self.pods then
    .ok ("The pod " ++ pod_name ++ " does not exist in the " ++ self.nspace ++ " namespace.")
  else
    match fetch with
    | .error e => .ok ("Failed to get logs for pod " ++ pod_name ++ ": " ++ e)
    | .ok logs =>
      if important then
        let log_lines := pySplitLines logs
        let filtered_logs := log_lines.filter fun line =>
          important_keywords.any fun kw => strContains (pyUpper line) kw
        if filtered_logs.length > 0 then
          .ok ("Found " ++ toString filtered_logs.length ++ " important log entries:\n\n" ++
            String.intercalate "\n" filtered_logs)
        else
          .ok ("No important log entries found, full log entries are appended\n" ++
            String.intercalate "\n" log_lines)
      else .ok logs

/-! ## Base kubernetes client: caches (`src/api/base_k8s_client.py`) -/

/-- The cache-relevant instance state of a `BaseK8sClient`. -/
structure BaseState where
  nspace : String
  servicesCache : Option (List String)
  podsCache : Option (List String)
deriving DecidableEq

/-- The lazy `k8s_client` property (src/api/base_k8s_client.py:18-28):
if the client is already initialised return it, otherwise try to build it —
and on failure log and RE-RAISE.  `inited` models `_k8s_client is not None`;
the client itself carries no data we need, so it is `Bool`. -/
def k8s_client (inited : Bool) (loadConfig : Except String Unit) : Except String Bool :=
  if inited then .ok true
  else
    match loadConfig with
    | .ok _ => .ok true
    | .error e => .error e

/-- `BaseK8sClient.get_services_list` (src/api/base_k8s_client.py:30-44),
parametrised by the outcome of the k8s listing call (which includes the lazy
client initialisation; both raise inside the same `try`).  Returns the value,
the new state, and whether the backend was contacted. -/
def get_services_list (st : BaseState) (use_cache : Bool)
    (backend : Except String (List String)) : List String × BaseState × Bool :=
  if ¬ use_cache ∨ st.servicesCache = none then
    match backend with
    | .ok names => (names, { st with servicesCache := some names }, true)
    | .error _ => ([], st, true)
  else (st.servicesCache.getD [], st, false)

/-- `BaseK8sClient.get_pods_list` (src/api/base_k8s_client.py:46-56). -/
def get_pods_list (st : BaseState) (use_cache : Bool)
    (backend : Except String (List String)) : List String × BaseState × Bool :=
  if ¬ use_cache ∨ st.podsCache = none then
    match backend with
    | .ok names => (names, { st with podsCache := some names }, true)
    | .error _ => ([], st, true)
  else (st.podsCache.getD [], st, false)

/-- `BaseK8sClient.refresh_cache` (src/api/base_k8s_client.py:146-149). -/
def refresh_cache (st : BaseState) : BaseState :=
  { st with servicesCache := none, podsCache := none }

/-- One cache-touching call in a trace of calls, each carrying the outcome its
backend call would have (claim C6 is about `use_cache=True` calls, which is
also the only way the repository ever calls these methods). -/
inductive CacheOp
  | getServices (backend : Except String (List String))
  | getPods (backend : Except String (List String))
  | refresh

/-- Whether a call in the trace is a `refresh_cache` call. -/
def CacheOp.isRefresh : CacheOp → Bool
  | .refresh => true
  | _ => false

/-- Step a state by one call; the `Bool` is whether the backend was contacted. -/
def cacheStep (st : BaseState) : CacheOp → BaseState × Bool
  | .getServices b => ((get_services_list st true b).2.1, (get_services_list st true b).2.2)
  | .getPods b => ((get_pods_list st true b).2.1, (get_pods_list st true b).2.2)
  | .refresh => (refresh_cache st, false)

/-- Run a trace of calls, counting backend contacts. -/
def runCache (st : BaseState) : List CacheOp → BaseState × Nat
  | [] => (st, 0)
  | op :: ops =>
    let s := cacheStep st op
    let r := runCache s.1 ops
    (r.1, (if s.2 then 1 else 0) + r.2)

/-! ## MCP tools and the backing systems they query (`src/mcp_server.py`)

For claim C4 only the *effect footprint* of a tool call matters: which backing
system each vendor-client call inside the handler contacts.  Each tool handler
below is abstracted to the list of backend contacts it performs, with one
parameter per branch condition of the handler (and of the API methods it
calls) that changes that list.  Pod/service existence checks against the
`self.pods` / `self.services` snapshots taken in `__init__` contact nothing. -/

/-- The four backing systems of the façade. -/
inductive Backend
  | k8s
  | prometheus
  | jaeger
  | graphdb
deriving DecidableEq

/-- Contacts of `get_pods_from_service` (src/api/base_k8s_client.py:58-95):
`get_services_list` hits k8s only when its cache is cold; a known service
costs one `read_namespaced_service` call, plus one `list_namespaced_pod`
call unless the handler stopped early (read raised, or the selector was
missing/empty).  `resolveOk` is true when the result carries no `error` key,
i.e. a pod list was produced. -/
def podsFromServiceTouches (cacheCold svcKnown secondCall : Bool) : List Backend :=
  (if cacheCold then [Backend.k8s] else []) ++
    (if svcKnown then Backend.k8s :: (if secondCall then [Backend.k8s] else []) else [])

/-- Contacts of `get_pod_metrics` for one pod: one instant Prometheus query
per metric when the pod is in the snapshot, none otherwise. -/
def podMetricsTouches (podKnown : Bool) : List Backend :=
  if podKnown then List.replicate all_metrics.length Backend.prometheus else []

/-- One MCP tool call, with the branch data that determines its backend
footprint.  For the service-shaped tools, `podsKnown` counts the pods of the
service that are also in the relevant snapshot (each is queried), and
`podsUnknown` the ones that are not (each is skipped / answered locally). -/
inductive ToolCall
  | metricsPod (podKnown : Bool)
  | metricsService (cacheCold svcKnown secondCall resolveOk : Bool) (podsKnown podsUnknown : Nat)
  | metricsRangePod (podKnown : Bool)
  | metricsRangeService (cacheCold svcKnown secondCall resolveOk : Bool) (podsKnown podsUnknown : Nat)
  | podsFromService (cacheCold svcKnown secondCall : Bool)
  | clusterOverview (podsCold servicesCold : Bool)
  | servicesUsedBy (svcKnown : Bool)
  | dependencies (svcKnown : Bool)
  | logsPod (podKnown : Bool)
  | logsService (cacheCold svcKnown secondCall resolveOk : Bool) (podsKnown podsUnknown : Nat)
  | traces (svcKnown : Bool)
  | trace

/-- The backend contacts a tool call performs, read off the handler bodies in
src/mcp_server.py and the API methods they delegate to:
* `get_metrics` / `get_metrics_range` on a pod → `get_pod_metrics(_range)`;
* on a service → `get_pods_from_service` (k8s) and then, if that produced a
  pod list, `get_pod_metrics(_range)` per pod (Prometheus);
* `get_pods_from_service`, `get_cluster_overview` → k8s only (the latter
  contacts nothing when both caches are warm);
* `get_services_used_by` / `get_dependencies` → one Cypher query on a known
  service;
* `get_logs` on a pod → `read_namespaced_pod_log`; on a service → pod
  resolution plus one log read per known pod (all k8s);
* `get_traces` → the Jaeger HTTP query on a known service; `get_trace` →
  always one Jaeger HTTP query. -/
def toolTouches : ToolCall → List Backend
  | .metricsPod podKnown => podMetricsTouches podKnown
  | .metricsService cacheCold svcKnown secondCall resolveOk podsKnown _podsUnknown =>
    podsFromServiceTouches cacheCold svcKnown secondCall ++
      (if svcKnown ∧ resolveOk then
        (List.replicate podsKnown (podMetricsTouches true)).flatten else [])
  | .metricsRangePod podKnown => podMetricsTouches podKnown
  | .metricsRangeService cacheCold svcKnown secondCall resolveOk podsKnown _podsUnknown =>
    podsFromServiceTouches cacheCold svcKnown secondCall ++
      (if svcKnown ∧ resolveOk then
        (List.replicate podsKnown (podMetricsTouches true)).flatten else [])
  | .podsFromService cacheCold svcKnown secondCall =>
    podsFromServiceTouches cacheCold svcKnown secondCall
  | .clusterOverview podsCold servicesCold =>
    (if podsCold then [Backend.k8s] else []) ++ (if servicesCold then [Backend.k8s] else [])
  | .servicesUsedBy svcKnown => if svcKnown then [Backend.graphdb] else []
  | .dependencies svcKnown => if svcKnown then [Backend.graphdb] else []
  | .logsPod podKnown => if podKnown then [Backend.k8s] else []
  | .logsService cacheCold svcKnown secondCall resolveOk podsKnown _podsUnknown =>
    podsFromServiceTouches cacheCold svcKnown secondCall ++
      (if svcKnown ∧ resolveOk then List.replicate podsKnown Backend.k8s else [])
  | .traces svcKnown => if svcKnown then [Backend.jaeger] else []
  | .trace => [Backend.jaeger]

/-- Whether a tool call is one of the two metrics tools in service mode (the
calls the amended claim C4 singles out). -/
def isServiceMetricsCall : ToolCall → Bool
  | .metricsService _ _ _ _ _ _ => true
  | .metricsRangeService _ _ _ _ _ _ => true
  | _ => false

/-- The backing systems a tool call is allowed to touch: a single designated
system for every tool, except the metrics tools in service mode, which may
touch Kubernetes (pod resolution) and Prometheus (the queries). -/
def allowedBackends : ToolCall → Finset Backend
  | .metricsPod _ => {Backend.prometheus}
  | .metricsService _ _ _ _ _ _ => {Backend.k8s, Backend.prometheus}
  | .metricsRangePod _ => {Backend.prometheus}
  | .metricsRangeService _ _ _ _ _ _ => {Backend.k8s, Backend.prometheus}
  | .podsFromService _ _ _ => {Backend.k8s}
  | .clusterOverview _ _ => {Backend.k8s}
  | .servicesUsedBy _ => {Backend.graphdb}
  | .dependencies _ => {Backend.graphdb}
  | .logsPod _ => {Backend.k8s}
  | .logsService _ _ _ _ _ _ => {Backend.k8s}
  | .traces _ => {Backend.jaeger}
  | .trace => {Backend.jaeger}

/-- The claim "queries exactly one backing system", as a predicate on a tool
call: the set of distinct backends contacted has exactly one element. -/
def queriesExactlyOneBackend (c : ToolCall) : Prop :=
  (toolTouches c).toFinset.card = 1

/-! ## Claim-side (spec-worded) definitions -/

/-- Claim C1's root-span condition, as the spec words it: the span's
`references` field is missing or empty. -/
def isRootCandidate (s : Span) : Prop :=
  s.references = none ∨ s.references = some []

instance (s : Span) : Decidable (isRootCandidate s) := by
  unfold isRootCandidate
  infer_instance

/-- Collapse consecutive repetitions of the same name, given the name last
kept (`none` at the start). -/
def collapseFrom : Option String → List String → List String
  | _, [] => []
  | last, x :: xs => if some x = last then collapseFrom last xs else x :: collapseFrom (some x) xs

/-- Claim C2's description of the `sequence` field, followed word for word:
sort the spans by `startTime`, map each span's `processID` through the
`processes` table, skip spans whose `processID` has no service name, collapse
consecutive repetitions, and join with `" -> "`. -/
def spec_sequence (t : JTrace) : String :=
  String.intercalate " -> "
    (collapseFrom none ((sortSpans t.spans).filterMap fun s => t.processes.lookup s.processID))

/-- The truthy service name a span contributes: the `processes` lookup must
succeed and the name must be non-empty. -/
def seqName (smap : List (String × String)) (s : Span) : Option String :=
  (smap.lookup s.processID).bind fun name => if name = "" then none else some name

/-- The amended description of the `sequence` field: as `spec_sequence`, but
a span whose service name is the empty string is skipped as well (Python
truthiness of `service_name`). -/
def amended_sequence (t : JTrace) : String :=
  String.intercalate " -> "
    (collapseFrom none ((sortSpans t.spans).filterMap (seqName t.processes)))

/-- Claim C7's filter, as the spec words it: the log lines whose upper-cased
text contains at least one of the listed important keywords. -/
def important_lines (logs : String) : List String :=
  (pySplitLines logs).filter fun line =>
    important_keywords.any fun kw => strContains (pyUpper line) kw

/-! ## Concrete inputs for witnesses and counterexamples -/

/-- A span with no `references` key (a root candidate). -/
def rootSpan : Span :=
  { references := none, duration := 2500, startTime := 0, processID := "p1", tags := [], logs := [] }

/-- A span with a non-empty `references` list (not a root candidate). -/
def childSpan : Span :=
  { references := some [()], duration := 500, startTime := 1, processID := "p2", tags := [], logs := [] }

/-- A second non-root span, same process as the root, latest start time. -/
def childSpan2 : Span :=
  { references := some [()], duration := 300, startTime := 2, processID := "p1", tags := [], logs := [] }

/-- A trace with no root candidate at all. -/
def noRootTrace : JTrace :=
  { traceID := "t0", spans := [childSpan], processes := [("p2", "b")] }

/-- A trace whose second span is the first root candidate. -/
def rootedTrace : JTrace :=
  { traceID := "t1", spans := [childSpan, rootSpan], processes := [("p1", "a"), ("p2", "b")] }

/-- The C2 counterexample trace: process `p2` is mapped to the *empty* service
name, and its span sits between two spans of service `"a"`. -/
def emptyNameTrace : JTrace :=
  { traceID := "t2", spans := [rootSpan, childSpan, childSpan2]
    processes := [("p1", "a"), ("p2", "")] }

/-- A Prometheus state with one pod, for the triage theorems. -/
def promSt : PromState := { nspace := "default", pods := ["mypod"] }

/-- Query outcomes under which one checked metric comes back as an
`"Error: ..."` string (its query raised) and all others are empty. -/
def cpuLoadRaises : String → PromResp := fun m =>
  if m = "container_cpu_load_average_10s" then .raises "connection refused" else .empty

/-- A JaegerAPI state with one known service. -/
def jaegerSt : JaegerState := { jaeger_url := "http://jaeger:16686", services := ["svcA"] }

/-- A base-client state with both caches populated. -/
def warmBase : BaseState :=
  { nspace := "default", servicesCache := some ["s1"], podsCache := some ["p1"] }

/-- A base-client state with both caches still `None`. -/
def coldBase : BaseState := { nspace := "default", servicesCache := none, podsCache := none }

/-- A LogAPI state with one pod. -/
def logSt : LogState := { nspace := "default", pods := ["web-1"] }

/-- The C4 counterexample call: `get_metrics` on an existing service (caches
warm, service resolution succeeds) backed by one known pod. -/
def svcMetricsCall : ToolCall := ToolCall.metricsService false true true true 1 0

/-! ## Shared lemmas -/

/-- The boolean root test of the code coincides with the claim's wording. -/
theorem refsMissingOrEmpty_iff (s : Span) : refsMissingOrEmpty s = true ↔ isRootCandidate s := by
  unfold refsMissingOrEmpty isRootCandidate
  cases h : s.references with
  | none => simp
  | some l => cases l <;> simp

/-- `List.find?` returns the element at the first position satisfying the
predicate. -/
theorem find?_eq_get_of_first {α : Type} (p : α → Bool) (l : List α) :
    ∀ (i : Nat) (h : i < l.length), p (l.get ⟨i, h⟩) = true →
      (∀ j (hj : j < i), p (l.get ⟨j, Nat.lt_trans hj h⟩) = false) →
      l.find? p = some (l.get ⟨i, h⟩) := by
  induction l with
  | nil => intro i h; exact absurd h (by simp)
  | cons a t ih =>
    intro i h hp hprev
    cases i with
    | zero => exact List.find?_cons_of_pos _ hp
    | succ n =>
      have ha : p a = false := hprev 0 (Nat.succ_pos n)
      rw [List.find?_cons_of_neg _ (by simp [ha])]
      exact ih n (Nat.lt_of_succ_lt_succ h) hp
        (fun j hj => hprev (j + 1) (Nat.succ_lt_succ hj))

/-- The service-sequence loop is the collapse of the truthy service names of
the spans, in order. -/
theorem buildSeq_eq_collapseFrom (smap : List (String × String)) :
    ∀ (spans : List Span) (last : Option String),
      buildSeq smap spans last = collapseFrom last (spans.filterMap (seqName smap)) := by
  intro spans
  induction spans with
  | nil => intro last; rfl
  | cons s rest ih =>
    intro last
    cases hl : smap.lookup s.processID with
    | none =>
      have hfs : seqName smap s = none := by simp [seqName, hl]
      simp only [buildSeq, hl, List.filterMap_cons, hfs]
      exact ih last
    | some name =>
      simp only [buildSeq, hl]
      by_cases he : name = ""
      · have hfs : seqName smap s = none := by simp [seqName, hl, he]
        simp only [List.filterMap_cons, hfs, if_neg (by simp [he] :
          ¬ (name ≠ "" ∧ some name ≠ last))]
        exact ih last
      · have hfs : seqName smap s = some name := by simp [seqName, hl, he]
        simp only [List.filterMap_cons, hfs, collapseFrom]
        by_cases hlast : some name = last
        · rw [if_neg (by simp [hlast]), if_pos hlast]
          exact ih last
        · rw [if_pos ⟨he, hlast⟩, if_neg hlast, ih (some name)]

/-! ## Claim theorems -/

/-- C1: for every trace dictionary, `process_trace` selects as root span the
first span in the `spans` list whose `references` field is missing or empty;
if no such span exists the function returns `None`, and otherwise the returned
`latency_ms` equals the root span's `duration` divided by 1000. -/
theorem process_trace_root_selection (t : JTrace) :
    ((∀ s ∈ t.spans, ¬ isRootCandidate s) → process_trace t = none) ∧
    (∀ (i : Nat) (h : i < t.spans.length), isRootCandidate (t.spans.get ⟨i, h⟩) →
      (∀ (j : Nat) (hj : j < i), ¬ isRootCandidate (t.spans.get ⟨j, Nat.lt_trans hj h⟩)) →
      ∃ r, process_trace t = some r ∧
        r.latency_ms = ((t.spans.get ⟨i, h⟩).duration : ℚ) / 1000) := by
  constructor
  · intro hall
    have hfind : t.spans.find? refsMissingOrEmpty = none :=
      List.find?_eq_none.mpr fun x hx hpx =>
        hall x hx ((refsMissingOrEmpty_iff x).mp hpx)
    simp [process_trace, hfind]
  · intro i h hroot hprev
    have hfind : t.spans.find? refsMissingOrEmpty = some (t.spans.get ⟨i, h⟩) :=
      find?_eq_get_of_first _ _ i h ((refsMissingOrEmpty_iff _).mpr hroot)
        (fun j hj => by
          have := hprev j hj
          rw [← refsMissingOrEmpty_iff] at this
          exact Bool.not_eq_true _ ▸ eq_false_of_ne_true this)
    refine ⟨processedOf t (t.spans.get ⟨i, h⟩), ?_, rfl⟩
    simp [process_trace, hfind]

/-- C1 witness: on `noRootTrace` (whose only span carries references) the
function returns `None`; on `rootedTrace` the second span is the first root
candidate and the latency is its duration over 1000. -/
theorem process_trace_root_selection_witness :
    process_trace noRootTrace = none ∧
    ∃ r, process_trace rootedTrace = some r ∧ r.latency_ms = ((2500 : Nat) : ℚ) / 1000 :=
  ⟨(process_trace_root_selection noRootTrace).1 (by decide),
   (process_trace_root_selection rootedTrace).2 1 (by decide) (by decide) (by decide)⟩

/-- C2 counterexample: on `emptyNameTrace` (process `p2` mapped to the empty
service name) the claim's description of `sequence` — map every resolvable
`processID`, collapse consecutive repetitions, join — predicts `"a ->  -> a"`,
but the code skips the empty (falsy) name and returns `"a"`. -/
theorem process_trace_sequence_cex :
    ¬ ((process_trace emptyNameTrace).map (fun r => r.sequence) =
        some (spec_sequence emptyNameTrace)) ∧
    (process_trace emptyNameTrace).map (fun r => r.sequence) = some "a" ∧
    spec_sequence emptyNameTrace = "a ->  -> a" := by
  refine ⟨?_, by decide, by decide⟩
  decide

/-- C2 amended: the `sequence` field of a processed trace is obtained by
sorting the spans by `startTime`, mapping each span's `processID` to its
service name via the `processes` table, skipping spans whose `processID` has
no service name **or whose service name is the empty string**, collapsing
consecutive repetitions, and joining with `" -> "`. -/
theorem process_trace_sequence_amended (t : JTrace) (r : ProcessedTrace)
    (h : process_trace t = some r) : r.sequence = amended_sequence t := by
  unfold process_trace at h
  cases hfind : t.spans.find? refsMissingOrEmpty with
  | none => rw [hfind] at h; exact absurd h (by simp)
  | some root =>
    rw [hfind] at h
    have hr : r = processedOf t root := by
      injection h with h'
      exact h'.symm
    rw [hr]
    show String.intercalate " -> " (buildSeq t.processes (sortSpans t.spans) none) =
      amended_sequence t
    rw [buildSeq_eq_collapseFrom]
    rfl

/-- C2 amended witness: on `rootedTrace` the code's `sequence` agrees with the
amended description. -/
theorem process_trace_sequence_amended_witness :
    process_trace rootedTrace = some
      { traceID := "t1", latency_ms := ((2500 : Nat) : ℚ) / 1000, has_error := false
        sequence := "a -> b", error_message := none } ∧
    ProcessedTrace.sequence
      { traceID := "t1", latency_ms := ((2500 : Nat) : ℚ) / 1000, has_error := false
        sequence := "a -> b", error_message := none } = amended_sequence rootedTrace :=
  ⟨rfl, process_trace_sequence_amended rootedTrace _ rfl⟩

/-- C8: `process_trace` is a stateless deterministic transformation: the
method reads and writes no instance state (its embedding ignores `self`
because the Python body never mentions it), and two calls on equal traces —
even from differently-configured API objects — return equal results. -/
theorem process_trace_stateless_deterministic (s₁ s₂ : JaegerState) (t₁ t₂ : JTrace)
    (h : t₁ = t₂) : processTraceMethod s₁ t₁ = processTraceMethod s₂ t₂ := by
  subst h
  rfl

/-- C8 witness: two API objects with different urls and service snapshots
process `rootedTrace` identically. -/
theorem process_trace_stateless_deterministic_witness :
    processTraceMethod jaegerSt rootedTrace =
      processTraceMethod { jaeger_url := "http://other:1", services := [] } rootedTrace :=
  process_trace_stateless_deterministic jaegerSt
    { jaeger_url := "http://other:1", services := [] } rootedTrace rootedTrace rfl

/-- C9: when the trace fetch fails (`get_jaeger_traces` returned `None`),
`get_slow_traces` answers with an `info` message and no `error` key, while
`get_processed_traces` answers with the `error` key
`"Failed to fetch traces from Jaeger"`; and the `get_slow_traces` answer for
the failed fetch is equal to its answer for an empty fetch, so a connection
failure is indistinguishable from an empty result. -/
theorem slow_traces_failure_indistinguishable (self : JaegerState)
    (service lookback : String) (min_duration_ms : ℚ) (h : service ∈ self.services) :
    (get_slow_traces self service min_duration_ms lookback none).info.isSome = true ∧
    (get_slow_traces self service min_duration_ms lookback none).error = none ∧
    (get_processed_traces self service lookback none).error =
      some "Failed to fetch traces from Jaeger" ∧
    get_slow_traces self service min_duration_ms lookback none =
      get_slow_traces self service min_duration_ms lookback (some []) := by
  refine ⟨?_, ?_, ?_, ?_⟩ <;> simp [get_slow_traces, get_processed_traces, h]

/-- C9 witness at a concrete state: the known service `svcA`, a failed fetch
versus an empty fetch. -/
theorem slow_traces_failure_indistinguishable_witness :
    (get_slow_traces jaegerSt "svcA" 250 "15m" none).info.isSome = true ∧
    (get_slow_traces jaegerSt "svcA" 250 "15m" none).error = none ∧
    (get_processed_traces jaegerSt "svcA" "15m" none).error =
      some "Failed to fetch traces from Jaeger" ∧
    get_slow_traces jaegerSt "svcA" 250 "15m" none =
      get_slow_traces jaegerSt "svcA" 250 "15m" (some []) :=
  slow_traces_failure_indistinguishable jaegerSt "svcA" "15m" 250 (by decide)

/-- C10: a pod name absent from the cached pod list makes
`get_pod_triage_metrics` report an anomaly: `is_anomalous` is true, `reasons`
is exactly the nonexistence error message, and `checked_metrics` is empty —
the missing pod is folded into the anomaly outcome, not a distinct error. -/
theorem triage_missing_pod_anomalous (self : PromState) (pod_name : String)
    (qf : String → PromResp) (h : pod_name ∉ self.pods) :
    get_pod_triage_metrics self pod_name qf = .ok
      { is_anomalous := true
        reasons := [.podError ("The pod " ++ pod_name ++ " does not exist in the " ++
          self.nspace ++ " namespace.")]
        checked_metrics := [] } := by
  simp [get_pod_triage_metrics, get_pod_metrics, triage_of_pod_data, h]

/-- C10 witness: the pod `ghost` is not in `promSt`'s snapshot. -/
theorem triage_missing_pod_anomalous_witness :
    get_pod_triage_metrics promSt "ghost" cpuLoadRaises = .ok
      { is_anomalous := true
        reasons := [.podError ("The pod " ++ "ghost" ++ " does not exist in the " ++
          promSt.nspace ++ " namespace.")]
        checked_metrics := [] } :=
  triage_missing_pod_anomalous promSt "ghost" cpuLoadRaises (by decide)

/-- C3 (code evaluated at the failing input): for the existing pod `mypod`,
when the Prometheus query for `container_cpu_load_average_10s` raised — so the
snapshot stores the string `"Error: connection refused"` for it —
`get_pod_triage_metrics` does not return a triage dict at all: the comparison
`cpu_load > 10.0` raises `TypeError`, contradicting the triage docstring's
declared dict result and the claim's "sets is_anomalous iff a rule fires". -/
theorem triage_type_error_on_error_string :
    get_pod_triage_metrics promSt "mypod" cpuLoadRaises = .error "TypeError" := rfl

/-- C6: once a cache field is non-`None`, a `use_cache=True` call returns the
cached list, leaves the state unchanged and does not contact the backend;
`refresh_cache` resets both cache fields to `None`, after which a call does
recompute (contacting the backend and storing the fresh list); and a whole
trace of `use_cache=True` calls containing no `refresh_cache` performs zero
backend contacts and never changes the state once both caches are set. -/
theorem cache_compute_once_until_refresh (st : BaseState) :
    (∀ (l : List String) (b : Except String (List String)), st.servicesCache = some l →
      get_services_list st true b = (l, st, false)) ∧
    (∀ (l : List String) (b : Except String (List String)), st.podsCache = some l →
      get_pods_list st true b = (l, st, false)) ∧
    ((refresh_cache st).servicesCache = none ∧ (refresh_cache st).podsCache = none) ∧
    (∀ (l' : List String), get_services_list (refresh_cache st) true (.ok l') =
      (l', { refresh_cache st with servicesCache := some l' }, true)) ∧
    (∀ (ops : List CacheOp), st.servicesCache.isSome = true → st.podsCache.isSome = true →
      (∀ op ∈ ops, op.isRefresh = false) → runCache st ops = (st, 0)) := by
  refine ⟨?_, ?_, ?_, ?_, ?_⟩
  · intro l b h
    simp [get_services_list, h]
  · intro l b h
    simp [get_pods_list, h]
  · exact ⟨rfl, rfl⟩
  · intro l'
    simp [get_services_list, refresh_cache]
  · intro ops hs hp hnr
    induction ops with
    | nil => rfl
    | cons op rest ih =>
      have hstep : cacheStep st op = (st, false) := by
        cases op with
        | getServices b =>
          obtain ⟨l, hl⟩ := Option.isSome_iff_exists.mp hs
          simp [cacheStep, get_services_list, hl]
        | getPods b =>
          obtain ⟨l, hl⟩ := Option.isSome_iff_exists.mp hp
          simp [cacheStep, get_pods_list, hl]
        | refresh => exact absurd (hnr .refresh (by simp)) (by simp [CacheOp.isRefresh])
      rw [runCache, hstep]
      simp [ih fun o ho => hnr o (List.mem_cons_of_mem _ ho)]

/-- C6 witness: with both caches of `warmBase` populated, a failing backend is
never consulted, a two-call trace touches nothing and preserves the state, and
`refresh_cache` clears the services cache. -/
theorem cache_compute_once_until_refresh_witness :
    get_services_list warmBase true (Except.error "connection refused") =
      (["s1"], warmBase, false) ∧
    runCache warmBase
      [CacheOp.getServices (Except.ok ["x"]), CacheOp.getPods (Except.error "down")] =
      (warmBase, 0) ∧
    (refresh_cache warmBase).servicesCache = none :=
  ⟨(cache_compute_once_until_refresh warmBase).1 ["s1"] _ rfl,
   (cache_compute_once_until_refresh warmBase).2.2.2.2 _ rfl rfl (by decide),
   (cache_compute_once_until_refresh warmBase).2.2.1.1⟩

/-- C7: for an existing pod whose logs were fetched, `important=True` returns
exactly the lines whose upper-cased text contains one of the keywords,
preceded by a header stating their count; with no matching line it returns all
lines preceded by the no-important-entries notice. -/
theorem important_log_filtering (st : LogState) (pod : String) (tail : Nat)
    (logs : String) (h : pod ∈ st.pods) :
    (important_lines logs ≠ [] →
      get_pod_logs st pod tail true (.ok logs) =
        .ok ("Found " ++ toString (important_lines logs).length ++
          " important log entries:\n\n" ++ String.intercalate "\n" (important_lines logs))) ∧
    (important_lines logs = [] →
      get_pod_logs st pod tail true (.ok logs) =
        .ok ("No important log entries found, full log entries are appended\n" ++
          String.intercalate "\n" (pySplitLines logs))) := by
  have hx : ¬ pod ∉ st.pods := by simpa using h
  constructor
  · intro hne
    have hlen : 0 < (important_lines logs).length := List.length_pos.mpr hne
    unfold important_lines at hlen
    simp only [get_pod_logs, if_neg hx, if_true]
    rw [if_pos hlen]
    rfl
  · intro hemp
    have hlen : ¬ 0 < ((pySplitLines logs).filter fun line =>
        important_keywords.any fun kw => strContains (pyUpper line) kw).length := by
      unfold important_lines at hemp
      simp [hemp]
    simp only [get_pod_logs, if_neg hx, if_true]
    rw [if_neg hlen]

/-- C7 witness: one of three fetched log lines matches a keyword (`ERROR`),
so the result is that line preceded by the count header. -/
theorem important_log_filtering_witness :
    get_pod_logs logSt "web-1" 100 true
      (.ok "starting up\nERROR: db connection refused\nready") =
      .ok "Found 1 important log entries:\n\nERROR: db connection refused" :=
  (important_log_filtering logSt "web-1" 100
    "starting up\nERROR: db connection refused\nready" (by decide)).1 (by decide)

/-- Lookup in the metrics dict built by mapping a function over the key list. -/
theorem lookup_map_self (f : String → Option MetricVal) :
    ∀ (l : List String) (m : String), m ∈ l →
      (l.map fun k => (k, f k)).lookup m = some (f m) := by
  intro l
  induction l with
  | nil => intro m hm; cases hm
  | cons a t ih =>
    intro m hm
    by_cases hma : m = a
    · subst hma
      simp [List.lookup]
    · have hmt : m ∈ t := by
        rcases List.mem_cons.mp hm with h | h
        · exact absurd h hma
        · exact h
      have hba : (m == a) = false := beq_eq_false_iff_ne.mpr hma
      simpa [List.lookup, hba] using ih m hmt

/-- C5 counterexample: a backend exception in `get_services_list` (cold cache)
is *not* surfaced as a stringified message inside the returned value — the
returned list is empty, mentioning neither `Error`, `Failed`, nor the
exception text; and the public `k8s_client` accessor re-raises the
initialisation exception instead of catching it. -/
theorem backend_error_swallowed_cex :
    get_services_list coldBase true (Except.error "connection refused") =
      ([], coldBase, true) ∧
    ((get_services_list coldBase true (Except.error "connection refused")).1.any fun s =>
      strContains s "connection refused" || strContains s "Error" ||
        strContains s "Failed") = false ∧
    k8s_client false (Except.error "failed to load kubeconfig") =
      Except.error "failed to load kubeconfig" :=
  ⟨rfl, rfl, rfl⟩

/-- C5 amended: no public *method* propagates a backend exception — each one
catches it and either surfaces it as a stringified message inside the returned
value (a `Failed to ...` string, an `Error: ...` metric value) or swallows it
into an empty default (`[]` from the cached list getters); only the
`k8s_client` accessor property re-raises, and every repository caller invokes
it inside its own `try`. -/
theorem backend_errors_contained_amended (lst : LogState) (pod : String) (tail : Nat)
    (important : Bool) (fetch : Except String String) (pst : PromState)
    (bst : BaseState) (e : String) :
    (∃ s, get_pod_logs lst pod tail important fetch = .ok s) ∧
    (pod ∈ lst.pods →
      get_pod_logs lst pod tail important (.error e) =
        .ok ("Failed to get logs for pod " ++ pod ++ ": " ++ e)) ∧
    (∀ m ∈ all_metrics, pod ∈ pst.pods →
      (get_pod_metrics pst pod fun _ => PromResp.raises e).metrics.lookup m =
        some (some (.err ("Error: " ++ e)))) ∧
    (bst.servicesCache = none →
      get_services_list bst true (.error e) = ([], bst, true)) := by
  refine ⟨?_, ?_, ?_, ?_⟩
  · by_cases hp : pod ∉ lst.pods
    · exact ⟨"The pod " ++ pod ++ " does not exist in the " ++ lst.nspace ++ " namespace.",
        by simp [get_pod_logs, hp]⟩
    · cases fetch with
      | error e' =>
        exact ⟨"Failed to get logs for pod " ++ pod ++ ": " ++ e',
          by simp [get_pod_logs, hp]⟩
      | ok logs =>
        cases important with
        | false => exact ⟨logs, by simp [get_pod_logs, hp]⟩
        | true =>
          simp only [get_pod_logs, if_neg hp, if_true]
          by_cases hl : 0 < ((pySplitLines logs).filter fun line =>
              important_keywords.any fun kw => strContains (pyUpper line) kw).length
          · exact ⟨_, by rw [if_pos hl]⟩
          · exact ⟨_, by rw [if_neg hl]⟩
  · intro hp
    simp [get_pod_logs, hp]
  · intro m hm hp
    have hin : ¬ pod ∉ pst.pods := by simpa using hp
    simp only [get_pod_metrics, if_pos hp]
    exact lookup_map_self _ all_metrics m hm
  · intro hc
    simp [get_services_list, hc]

/-- C5 amended witness at concrete inputs: a successful fetch yields a plain
string; a raised log read is surfaced as a `Failed to ...` string; a raised
Prometheus query is surfaced as an `Error: ...` metric value; a raised k8s
listing is swallowed into `[]`. -/
theorem backend_errors_contained_amended_witness :
    (∃ s, get_pod_logs logSt "web-1" 100 true (.ok "all good") = .ok s) ∧
    get_pod_logs logSt "web-1" 100 true (.error "connection refused") =
      .ok "Failed to get logs for pod web-1: connection refused" ∧
    (get_pod_metrics promSt "mypod" fun _ => PromResp.raises "connection refused").metrics.lookup
      "container_threads" = some (some (.err "Error: connection refused")) ∧
    get_services_list coldBase true (.error "connection refused") = ([], coldBase, true) :=
  ⟨(backend_errors_contained_amended logSt "web-1" 100 true (.ok "all good") promSt coldBase
      "connection refused").1,
   (backend_errors_contained_amended logSt "web-1" 100 true (.ok "all good") promSt coldBase
      "connection refused").2.1 (by decide),
   (backend_errors_contained_amended logSt "mypod" 100 true (.ok "all good") promSt coldBase
      "connection refused").2.2.1 "container_threads" (by decide) (by decide),
   (backend_errors_contained_amended logSt "web-1" 100 true (.ok "all good") promSt coldBase
      "connection refused").2.2.2 rfl⟩

/-- Every contact of the pod-resolution helper hits Kubernetes. -/
theorem mem_podsFromServiceTouches {x : Backend} {a b c2 : Bool}
    (hx : x ∈ podsFromServiceTouches a b c2) : x = Backend.k8s := by
  unfold podsFromServiceTouches at hx
  rcases List.mem_append.mp hx with h | h
  · cases a <;> simp_all
  · cases b <;> cases c2 <;> simp_all

/-- Every contact of a single-pod metrics fetch hits Prometheus. -/
theorem mem_podMetricsTouches {x : Backend} {p : Bool}
    (hx : x ∈ podMetricsTouches p) : x = Backend.prometheus := by
  unfold podMetricsTouches at hx
  cases p <;> simp_all [List.eq_of_mem_replicate]

/-- A list all of whose elements are one backend has at most one distinct
backend. -/
theorem card_le_one_of_all_eq {l : List Backend} {b : Backend}
    (h : ∀ x ∈ l, x = b) : l.toFinset.card ≤ 1 := by
  have hsub : l.toFinset ⊆ {b} := by
    intro x hx
    rw [List.mem_toFinset] at hx
    simp [h x hx]
  calc l.toFinset.card ≤ ({b} : Finset Backend).card := Finset.card_le_card hsub
    _ = 1 := Finset.card_singleton b

/-- Membership in the guarded per-pod metrics block of the service-mode
metrics tools is a Prometheus contact. -/
theorem mem_serviceMetricsBlock {x : Backend} {cnd : Prop} [Decidable cnd] {pk : Nat}
    (hx : x ∈ if cnd then (List.replicate pk (podMetricsTouches true)).flatten else []) :
    x = Backend.prometheus := by
  by_cases hc : cnd
  · rw [if_pos hc] at hx
    rcases List.mem_flatten.mp hx with ⟨l, hl, hxl⟩
    have hle : l = podMetricsTouches true := List.eq_of_mem_replicate hl
    rw [hle] at hxl
    exact mem_podMetricsTouches hxl
  · rw [if_neg hc] at hx
    cases hx

/-- C4 counterexample: `get_metrics` on an existing service queries *two*
backing systems — Kubernetes to resolve the service's pods, then Prometheus
for each pod's metrics — refuting "every tool queries exactly one backing
system". -/
theorem tools_single_backend_cex :
    ¬ queriesExactlyOneBackend svcMetricsCall ∧
    (toolTouches svcMetricsCall).toFinset = {Backend.k8s, Backend.prometheus} := by
  constructor
  · intro hone
    rw [queriesExactlyOneBackend] at hone
    revert hone
    decide
  · decide

/-- C4 amended: every MCP tool call touches only the backing systems
designated for that tool — a single system per tool (validation failures and
cache hits may touch none), except `get_metrics` / `get_metrics_range` in
service mode, which may touch both Kubernetes and Prometheus. -/
theorem tools_backend_footprint_amended (c : ToolCall) :
    (toolTouches c).toFinset ⊆ allowedBackends c ∧
    (isServiceMetricsCall c = false → (toolTouches c).toFinset.card ≤ 1) := by
  cases c with
  | metricsPod p =>
    refine ⟨fun x hx => ?_, fun _ => ?_⟩
    · rw [List.mem_toFinset] at hx
      simp [allowedBackends, mem_podMetricsTouches hx]
    · exact card_le_one_of_all_eq fun x hx => mem_podMetricsTouches hx
  | metricsService a b c2 d pk pu =>
    refine ⟨fun x hx => ?_, fun hf => by simp [isServiceMetricsCall] at hf⟩
    rw [List.mem_toFinset] at hx
    rcases List.mem_append.mp hx with h | h
    · simp [allowedBackends, mem_podsFromServiceTouches h]
    · simp [allowedBackends, mem_serviceMetricsBlock h]
  | metricsRangePod p =>
    refine ⟨fun x hx => ?_, fun _ => ?_⟩
    · rw [List.mem_toFinset] at hx
      simp [allowedBackends, mem_podMetricsTouches hx]
    · exact card_le_one_of_all_eq fun x hx => mem_podMetricsTouches hx
  | metricsRangeService a b c2 d pk pu =>
    refine ⟨fun x hx => ?_, fun hf => by simp [isServiceMetricsCall] at hf⟩
    rw [List.mem_toFinset] at hx
    rcases List.mem_append.mp hx with h | h
    · simp [allowedBackends, mem_podsFromServiceTouches h]
    · simp [allowedBackends, mem_serviceMetricsBlock h]
  | podsFromService a b c2 =>
    refine ⟨fun x hx => ?_, fun _ => ?_⟩
    · rw [List.mem_toFinset] at hx
      simp [allowedBackends, mem_podsFromServiceTouches hx]
    · exact card_le_one_of_all_eq fun x hx => mem_podsFromServiceTouches hx
  | clusterOverview a b =>
    have hk : ∀ x ∈ toolTouches (ToolCall.clusterOverview a b), x = Backend.k8s := by
      intro x hx
      rcases List.mem_append.mp hx with h | h
      · cases a <;> simp_all
      · cases b <;> simp_all
    refine ⟨fun x hx => ?_, fun _ => card_le_one_of_all_eq hk⟩
    rw [List.mem_toFinset] at hx
    simp [allowedBackends, hk x hx]
  | servicesUsedBy s =>
    have hk : ∀ x ∈ toolTouches (ToolCall.servicesUsedBy s), x = Backend.graphdb := by
      intro x hx
      cases s <;> simp_all [toolTouches]
    refine ⟨fun x hx => ?_, fun _ => card_le_one_of_all_eq hk⟩
    rw [List.mem_toFinset] at hx
    simp [allowedBackends, hk x hx]
  | dependencies s =>
    have hk : ∀ x ∈ toolTouches (ToolCall.dependencies s), x = Backend.graphdb := by
      intro x hx
      cases s <;> simp_all [toolTouches]
    refine ⟨fun x hx => ?_, fun _ => card_le_one_of_all_eq hk⟩
    rw [List.mem_toFinset] at hx
    simp [allowedBackends, hk x hx]
  | logsPod p =>
    have hk : ∀ x ∈ toolTouches (ToolCall.logsPod p), x = Backend.k8s := by
      intro x hx
      cases p <;> simp_all [toolTouches]
    refine ⟨fun x hx => ?_, fun _ => card_le_one_of_all_eq hk⟩
    rw [List.mem_toFinset] at hx
    simp [allowedBackends, hk x hx]
  | logsService a b c2 d pk pu =>
    have hk : ∀ x ∈ toolTouches (ToolCall.logsService a b c2 d pk pu), x = Backend.k8s := by
      intro x hx
      rcases List.mem_append.mp hx with h | h
      · exact mem_podsFromServiceTouches h
      · by_cases hc : b = true ∧ d = true
        · rw [if_pos hc] at h
          exact List.eq_of_mem_replicate h
        · rw [if_neg hc] at h
          cases h
    refine ⟨fun x hx => ?_, fun _ => card_le_one_of_all_eq hk⟩
    rw [List.mem_toFinset] at hx
    simp [allowedBackends, hk x hx]
  | traces s =>
    have hk : ∀ x ∈ toolTouches (ToolCall.traces s), x = Backend.jaeger := by
      intro x hx
      cases s <;> simp_all [toolTouches]
    refine ⟨fun x hx => ?_, fun _ => card_le_one_of_all_eq hk⟩
    rw [List.mem_toFinset] at hx
    simp [allowedBackends, hk x hx]
  | trace =>
    refine ⟨fun x hx => ?_, fun _ => by decide⟩
    rw [List.mem_toFinset] at hx
    simp_all [toolTouches, allowedBackends]

/-- C4 amended witness: the `get_trace` tool keeps to its designated Jaeger
backend and touches at most one distinct system. -/
theorem tools_backend_footprint_amended_witness :
    (toolTouches ToolCall.trace).toFinset ⊆ allowedBackends ToolCall.trace ∧
    (toolTouches ToolCall.trace).toFinset.card ≤ 1 :=
  ⟨(tools_backend_footprint_amended ToolCall.trace).1,
   (tools_backend_footprint_amended ToolCall.trace).2 rfl⟩
